import Mathlib

/-!
Verification development for the tap-twinfield extractor.

The Python modules `cleaners.py`, `tools.py`, `streams.py` and the
extraction methods of `twinfield.py` are shallowly embedded below.
Python dictionaries are modelled as insertion-ordered association
lists, Python exceptions as an error inductive threaded through
`Except`, and the two external primitives the code calls
(`hashlib.sha1(...).hexdigest` and `dateutil.parser.parse`) are
modelled as explicit function parameters, since no claim depends on
their internals.
-/

namespace TapTwinfield

/-- A Python runtime value as it occurs in this tap: `None`, `str`,
`int`, `bool`, `Decimal` (modelled as coefficient times ten to the
exponent), `list` and `dict` (insertion-ordered association list). -/
inductive Value : Type where
  | vNone : Value
  | vStr : String → Value
  | vInt : Int → Value
  | vBool : Bool → Value
  | vDec : Int → Int → Value
  | vList : List Value → Value
  | vDict : List (String × Value) → Value

/-- Python exception classes that the embedded code can raise.
`convertionError` is the `ConvertionError(ValueError)` class of
`cleaners.py` (spelling as in the source); `invalidOperation` is
`decimal.InvalidOperation`, which derives from `ArithmeticError`
and is therefore NOT caught by an `except ValueError` clause. -/
inductive PyError : Type where
  | valueError : String → PyError
  | typeError : String → PyError
  | invalidOperation : String → PyError
  | indexError : String → PyError
  | keyError : String → PyError
  | convertionError : String → PyError
deriving DecidableEq

/-- Whether a `PyError` is the `ConvertionError` of `cleaners.py`. -/
def isConvertionError : PyError → Bool
  | .convertionError _ => true
  | _ => false

/-- Whether a `PyError` is a builtin `ValueError` (the only class the
`except ValueError` clause in `to_type_or_null` catches). -/
def isValueError : PyError → Bool
  | .valueError _ => true
  | _ => false

/-- Python truthiness: `None`, `0`, `""`, `False`, `Decimal(0)`, `[]`
and an empty dict are falsy, everything else is truthy. -/
def truthy : Value → Bool
  | .vNone => false
  | .vStr s => !(s == "")
  | .vInt n => !(n == 0)
  | .vBool b => b
  | .vDec m _ => !(m == 0)
  | .vList xs => !xs.isEmpty
  | .vDict xs => !xs.isEmpty

/-- The single-quote character, used by the Python `repr` of strings. -/
def squote : Char := Char.ofNat 39

/-- Escape one character for the Python `repr` of a string quoted by
`q` (backslashes and the quote character are escaped; control-character
escapes are not modelled, report rows never contain them). -/
def escapeChar (q : Char) (c : Char) : String :=
  if c = '\\' then "\\\\"
  else if c = q then "\\" ++ String.mk [q]
  else String.mk [c]

/-- Python `repr` of a `str`: single quotes by default, double quotes
when the string contains a single quote but no double quote. -/
def reprStr (s : String) : String :=
  let hasS := s.data.contains squote
  let hasD := s.data.contains '"'
  let q : Char := if hasS && !hasD then '"' else squote
  String.mk [q] ++ String.join (s.data.map (escapeChar q)) ++ String.mk [q]

mutual

/-- Python `repr` of a value (the textual form `str(row)` hashes).
The textual form of a `Decimal` does not preserve trailing zeroes of
the original literal; cleaned rows are never re-serialised, so no
claim depends on that distinction. -/
def reprValue : Value → String
  | .vNone => "None"
  | .vStr s => reprStr s
  | .vInt n => toString n
  | .vBool b => if b then "True" else "False"
  | .vDec m e =>
      "Decimal(" ++ reprStr (toString m ++ (if e == 0 then "" else "E" ++ toString e)) ++ ")"
  | .vList xs => "[" ++ reprItems xs ++ "]"
  | .vDict xs => "\x7b" ++ reprPairs xs ++ "\x7d"

/-- Comma-separated `repr` of list items. -/
def reprItems : List Value → String
  | [] => ""
  | [v] => reprValue v
  | v :: vs => reprValue v ++ ", " ++ reprItems vs

/-- Comma-separated `repr` of dict items. -/
def reprPairs : List (String × Value) → String
  | [] => ""
  | [kv] => reprStr kv.1 ++ ": " ++ reprValue kv.2
  | kv :: kvs => reprStr kv.1 ++ ": " ++ reprValue kv.2 ++ ", " ++ reprPairs kvs

end

/-- Python `str` of a value: the string itself for a `str`, the `repr`
for every other class used here. -/
def pyStr : Value → String
  | .vStr s => s
  | v => reprValue v

/-- Decimal digits to a natural number. -/
def digitsToNat (ds : List Char) : Nat :=
  ds.foldl (fun a c => 10 * a + (c.toNat - 48)) 0

/-- Python `s.strip()`: drop whitespace from both ends. -/
def pyStrip (s : String) : String :=
  String.mk (((s.data.dropWhile Char.isWhitespace).reverse.dropWhile
    Char.isWhitespace).reverse)

/-- Python `s.lstrip()`: drop whitespace from the left end. -/
def pyLStrip (s : String) : String :=
  String.mk (s.data.dropWhile Char.isWhitespace)

/-- Split a character list on a separator character. -/
def splitOnCharAux (sep : Char) : List Char → List Char → List (List Char)
  | [], acc => [acc.reverse]
  | x :: xs, acc =>
    if x = sep then acc.reverse :: splitOnCharAux sep xs []
    else splitOnCharAux sep xs (x :: acc)

/-- Python `s.split(sep)` for a one-character separator (as in
`start_date.split(\x22-\x22)`): the pieces between occurrences of the
separator, at least one piece even for the empty string. -/
def pySplitOnChar (sep : Char) (s : String) : List String :=
  (splitOnCharAux sep s.data []).map String.mk

/-- Python `s.replace(old, new)` for one-character arguments (as in
`yearperiod.replace(\x22/\x22, \x22-\x22)`). -/
def pyCharReplace (s : String) (old new : Char) : String :=
  String.mk (s.data.map (fun c => if c = old then new else c))

/-- Python `int(s)` on a string: strip surrounding whitespace, accept
an optional sign followed by decimal digits, raise `ValueError`
otherwise (digit-group underscores and non-ASCII digits are not
modelled; report rows never contain them). -/
def pyIntParse (s : String) : Except PyError Int :=
  let t := pyStrip s
  let sd : Int × List Char :=
    match t.data with
    | '+' :: rest => (1, rest)
    | '-' :: rest => (-1, rest)
    | l => (1, l)
  if sd.2.isEmpty || !(sd.2.all Char.isDigit) then
    .error (.valueError ("invalid literal for int with base 10: " ++ reprStr s))
  else
    .ok (sd.1 * Int.ofNat (digitsToNat sd.2))

/-- Leading decimal digits of a character list, and the remainder. -/
def splitDigits (l : List Char) : List Char × List Char :=
  (l.takeWhile Char.isDigit, l.dropWhile Char.isDigit)

/-- Parse the unsigned part of a `Decimal` literal, returning
coefficient and exponent. -/
def decParseCore (l : List Char) : Option (Int × Int) :=
  let ipRest := splitDigits l
  let fpRest2 : List Char × List Char :=
    match ipRest.2 with
    | '.' :: r => splitDigits r
    | _ => ([], ipRest.2)
  if ipRest.1.isEmpty && fpRest2.1.isEmpty then none
  else
    let coeff : Int := Int.ofNat (digitsToNat (ipRest.1 ++ fpRest2.1))
    let e0 : Int := -(Int.ofNat fpRest2.1.length)
    match fpRest2.2 with
    | [] => some (coeff, e0)
    | c :: r =>
      if c = 'e' || c = 'E' then
        let sr : Int × List Char :=
          match r with
          | '+' :: rr => (1, rr)
          | '-' :: rr => (-1, rr)
          | rr => (1, rr)
        let edRest := splitDigits sr.2
        if edRest.1.isEmpty || !edRest.2.isEmpty then none
        else some (coeff, e0 + sr.1 * Int.ofNat (digitsToNat edRest.1))
      else none

/-- Python `Decimal(s)` on a string: strip whitespace, optional sign,
digits with optional fraction and exponent; on a malformed literal it
raises `decimal.InvalidOperation` (an `ArithmeticError`, not a
`ValueError`). The special literals `Infinity` and `NaN` are not
modelled; no monetary report field produces them. -/
def decParse (s : String) : Except PyError (Int × Int) :=
  let t := pyStrip s
  let sd : Int × List Char :=
    match t.data with
    | '+' :: rest => (1, rest)
    | '-' :: rest => (-1, rest)
    | l => (1, l)
  match decParseCore sd.2 with
  | some ce => .ok (sd.1 * ce.1, ce.2)
  | none => .error (.invalidOperation "[<class decimal.ConversionSyntax>]")

/-- The target types that appear in the `type` slots of the STREAMS
mapping tables: `int`, `Decimal`, and the `date_parser` helper of
`streams.py` (a dateutil-based timestamp-to-isoformat function). -/
inductive DType : Type where
  | intT : DType
  | decimalT : DType
  | dateParserT : DType
deriving DecidableEq

/-- The Python class name of a value, for error messages. -/
def typeName : Value → String
  | .vNone => "NoneType"
  | .vStr _ => "str"
  | .vInt _ => "int"
  | .vBool _ => "bool"
  | .vDec _ _ => "Decimal"
  | .vList _ => "list"
  | .vDict _ => "dict"

/-- Display name of a target type, for error messages. -/
def dtypeName : DType → String
  | .intT => "int"
  | .decimalT => "Decimal"
  | .dateParserT => "date_parse"

/-- Apply a declared target type to a value, as Python would:
`int(v)`, `Decimal(v)` or `date_parser(v)`. The external
`dateutil.parser.parse` is taken as the explicit `dateParse`
parameter. `int` truncates a `Decimal` toward zero. -/
def applyDType (dateParse : String → Except PyError String) :
    DType → Value → Except PyError Value
  | .intT, .vInt n => .ok (.vInt n)
  | .intT, .vBool b => .ok (.vInt (if b then 1 else 0))
  | .intT, .vStr s => (pyIntParse s).map Value.vInt
  | .intT, .vDec m e =>
      .ok (.vInt (if 0 ≤ e then m * (10 : Int) ^ e.toNat else Int.tdiv m ((10 : Int) ^ (-e).toNat)))
  | .intT, v => .error (.typeError ("int() argument must not be " ++ typeName v))
  | .decimalT, .vStr s => (decParse s).map (fun ce => Value.vDec ce.1 ce.2)
  | .decimalT, .vInt n => .ok (.vDec n 0)
  | .decimalT, .vBool b => .ok (.vDec (if b then 1 else 0) 0)
  | .decimalT, .vDec m e => .ok (.vDec m e)
  | .decimalT, v => .error (.typeError ("conversion from " ++ typeName v ++ " to Decimal is not supported"))
  | .dateParserT, .vStr s => (dateParse s).map Value.vStr
  | .dateParserT, v => .error (.typeError ("Parser must be a string, not " ++ typeName v))

/-- `cleaners.to_type_or_null`: if the input value is truthy and a
target type was declared, apply the type; an exception from the
conversion is re-raised as `ConvertionError` only when it is a
`ValueError` (the `except ValueError` clause), every other exception
propagates unchanged. A falsy value with `nullable` becomes `None`;
otherwise the original value is returned. -/
def to_type_or_null (dateParse : String → Except PyError String)
    (input_value : Value) (data_type : Option DType) (nullable : Bool) :
    Except PyError Value :=
  match data_type with
  | some dt =>
    if truthy input_value then
      match applyDType dateParse dt input_value with
      | .ok converted => .ok converted
      | .error (.valueError msg) =>
          .error (.convertionError
            ("Could not convert " ++ pyStr input_value ++ " to " ++ dtypeName dt ++ ": " ++ msg))
      | .error e => .error e
    else if nullable then .ok .vNone
    else .ok input_value
  | none =>
    if !truthy input_value && nullable then .ok .vNone
    else .ok input_value

/-- A Python dict with string keys, as an insertion-ordered
association list (keys are unique in every dict the code builds). -/
def alistGet? {α : Type} (d : List (String × α)) (k : String) : Option α :=
  match d with
  | [] => none
  | kv :: rest => if kv.1 = k then some kv.2 else alistGet? rest k

/-- Python dict assignment `d[k] = v`: overwrite in place if the key
exists (keeping its position), otherwise append at the end. -/
def alistSet {α : Type} (d : List (String × α)) (k : String) (v : α) :
    List (String × α) :=
  match d with
  | [] => [(k, v)]
  | kv :: rest => if kv.1 = k then (k, v) :: rest else kv :: alistSet rest k v

/-- A raw or cleaned report row. -/
abbrev PyDict := List (String × Value)

/-- Python dict lookup on a row. -/
def dictGet? (d : PyDict) (k : String) : Option Value := alistGet? d k

/-- Python dict assignment on a row. -/
def dictSet (d : PyDict) (k : String) (v : Value) : PyDict := alistSet d k v

/-- One entry of a STREAMS field mapping: the optional new column
name (`map`), the optional target type (`type`), and nullability
(`null`, which `clean_row` defaults to `True` when absent). -/
structure FieldMap : Type where
  map : Option String
  type : Option DType
  null : Bool
deriving DecidableEq

/-- Helper to write a mapping entry with all three slots, as every
entry of `streams.py` spells out `map` and `null`. -/
def fm (m : String) (t : Option DType) (n : Bool) : FieldMap := ⟨some m, t, n⟩

/-- A STREAMS field mapping table, in declaration order. -/
abbrev Mapping := List (String × FieldMap)

/-- The loop body of `cleaners.clean_row` for one mapping entry:
rename the column (`key_mapping.get(\x22map\x22) or key`), read the
raw value (`row[key]`, raising `KeyError` when the column is absent),
convert it with `to_type_or_null` and store it into the dict of
cleaned values. -/
def cleanStep (dateParse : String → Except PyError String) (row : PyDict)
    (cleaned : PyDict) (kv : String × FieldMap) : Except PyError PyDict :=
  let key := kv.1
  let key_mapping := kv.2
  let new_mapping : String :=
    match key_mapping.map with
    | some m => if m = "" then key else m
    | none => key
  match dictGet? row key with
  | none => Except.error (.keyError key)
  | some v =>
    (to_type_or_null dateParse v key_mapping.type key_mapping.null).map
      (fun cv => dictSet cleaned new_mapping cv)

/-- `cleaners.clean_row`: run the loop body over every mapping entry
in order, collecting the results into a fresh dict. -/
def clean_row (dateParse : String → Except PyError String)
    (row : PyDict) (mapping : Mapping) : Except PyError PyDict :=
  mapping.foldlM (cleanStep dateParse row) []

/-- One entry of the STREAMS registry of `streams.py`. -/
structure StreamDef : Type where
  key_properties : String
  replication_method : String
  replication_key : String
  bookmark : String
  mapping : Mapping
deriving DecidableEq

/-- The field mapping of the `bank_transactions` stream. -/
def bankTransactionsMapping : Mapping :=
  [ ("id", fm "id" none false),
    ("Periode", fm "yearperiod" none false),
    ("Bank", fm "bank_code" none false),
    ("Bank Naam", fm "bank_shortname" none false),
    ("Boekst.nr.", fm "entry_number" (some .intT) false),
    ("Afschriftnr.", fm "statement_number" (some .intT) false),
    ("Grootboek", fm "ledger" none false),
    ("Grootboek Naam", fm "ledger_name" none false),
    ("Valuta", fm "curcode" none false),
    ("Bedrag", fm "value_signed" (some .decimalT) false),
    ("Euro", fm "basevalue_signed" (some .decimalT) false),
    ("Vorig saldo", fm "startvalue" (some .decimalT) false),
    ("Eindsaldo", fm "closevalue" (some .decimalT) false),
    ("Status", fm "status" none false) ]

/-- The field mapping of the `transaction_list` stream. -/
def transactionListMapping : Mapping :=
  [ ("id", fm "id" none false),
    ("Periode", fm "yearperiod" none false),
    ("Dagboek", fm "journal" none false),
    ("Naam", fm "journal_name" none false),
    ("Boekst.nr.", fm "booking_number" (some .intT) false),
    ("Status", fm "booking_status" none false),
    ("Boekdatum", fm "booking_date" (some .dateParserT) false),
    ("Grootboek", fm "ledger" (some .intT) false),
    ("Relatie", fm "relation" none true),
    ("Project", fm "project" none true),
    ("Valuta", fm "curcode" none false),
    ("Bedrag", fm "valuesigned" (some .decimalT) false),
    ("Euro", fm "base_valuesigned" (some .decimalT) false),
    ("Factuurnr.", fm "invoice_number" none true),
    ("Invoerdatum", fm "entry_date" (some .dateParserT) false),
    ("Omschrijving", fm "description" none true),
    ("Regime", fm "regime" none true) ]

/-- The field mapping of the `general_ledger_transactions` stream. -/
def generalLedgerTransactionsMapping : Mapping :=
  [ ("id", fm "id" none false),
    ("Periode", fm "yearperiod" none false),
    ("Dagboek", fm "journal" none false),
    ("Naam", fm "journal_name" none false),
    ("Boekst.nr.", fm "booking_number" (some .intT) false),
    ("Status", fm "booking_status" none false),
    ("Grootboek", fm "ledger" (some .intT) false),
    ("Valuta", fm "curcode" none false),
    ("Bedrag", fm "valuesigned" (some .decimalT) false),
    ("Euro", fm "base_valuesigned" (some .decimalT) false),
    ("Omschrijving", fm "description" none true),
    ("Regime", fm "regime" none true) ]

/-- The field mapping of the `transactions_to_be_matched` stream. -/
def transactionsToBeMatchedMapping : Mapping :=
  [ ("id", fm "id" none false),
    ("Periode", fm "yearperiod" none false),
    ("Grootboek", fm "ledger" (some .intT) false),
    ("Naam", fm "ledger_name" none false),
    ("Dagboek", fm "journal" none false),
    ("Boekst.nr.", fm "booking_number" (some .intT) false),
    ("Valuta", fm "curcode" none false),
    ("Bedrag", fm "valuesigned" (some .decimalT) false),
    ("Euro", fm "base_valuesigned" (some .decimalT) false),
    ("Openstaand bedrag", fm "openbase_valuesigned" (some .decimalT) false),
    ("Betaalstatus", fm "payment_status" none false),
    ("Regime", fm "regime" none true) ]

/-- The field mapping of the `general_ledger_details` stream. -/
def generalLedgerDetailsMapping : Mapping :=
  [ ("id", fm "id" none false),
    ("Administratie", fm "office" none false),
    ("Adm.naam", fm "office_name" none false),
    ("Jaar", fm "year" (some .intT) false),
    ("Periode", fm "period" (some .intT) false),
    ("Dagboek", fm "journal" none false),
    ("Boekingsnummer", fm "booking_number" (some .intT) false),
    ("Status", fm "status" none false),
    ("Boekdatum", fm "book_date" (some .dateParserT) false),
    ("Valuta", fm "curcode" none false),
    ("Relatie", fm "relation" none true),
    ("Relatienaam", fm "relation_name" none true),
    ("Invoerdatum", fm "input_date" (some .dateParserT) false),
    ("Gebruikersnaam", fm "username" none false),
    ("Grootboekrek.", fm "ledger" (some .intT) false),
    ("Grootboekrek.naam", fm "ledger_name" none false),
    ("Dimensietype 1", fm "ledger_type" none false),
    ("Kpl./rel.", fm "cost_centre" none true),
    ("Kpl.-/rel.naam", fm "cost_centre_name" none true),
    ("Dimensietype 2", fm "cost_centre_type" none true),
    ("Act./proj.", fm "project" none true),
    ("Act.-/proj.naam", fm "project_name" none true),
    ("Dimensietype 3", fm "project_type" none true),
    ("Bedrag", fm "valuesigned" (some .decimalT) false),
    ("Basisbedrag", fm "base_valuesigned" (some .decimalT) false),
    ("Rapportagebedrag", fm "report_valuesigned" (some .decimalT) true),
    ("D/C", fm "debitcredit" none false),
    ("Btw-code", fm "vatcode" none true),
    ("Btw-bedrag", fm "vatbasevaluesigned" (some .decimalT) true),
    ("Aantal", fm "quantity" (some .intT) true),
    ("Cheque", fm "cheque_number" none true),
    ("Omschrijving", fm "description" none true),
    ("Factuurnummer", fm "invoice_number" none true),
    ("groups", fm "groups" none true),
    ("Vrij tekstveld 1", fm "freetext1" none true),
    ("Vrij tekstveld 2", fm "freetext2" none true),
    ("Vrij tekstveld 3", fm "freetext3" none true),
    ("Boekingsoorsprong", fm "origin" none false),
    ("transactie type groep", fm "type" none false) ]

/-- The field mapping of the `annual_report` stream. -/
def annualReportMapping : Mapping :=
  [ ("id", fm "id" none false),
    ("Administratie", fm "office" none false),
    ("Adm.naam", fm "office_name" none false),
    ("Jaar", fm "year" (some .intT) false),
    ("Periode", fm "period" (some .intT) false),
    ("Grootboekrek.", fm "ledger" (some .intT) false),
    ("Grootboekrek.naam", fm "ledger_name" none false),
    ("Dimensietype 1", fm "ledger_type" none false),
    ("Kpl./rel.", fm "cost_centre" none true),
    ("Kpl.-/rel.naam", fm "cost_centre_name" none true),
    ("Act./proj.", fm "project" none true),
    ("Act.-/proj.naam", fm "project_name" none true),
    ("Dimensietype 3", fm "project_type" none true),
    ("Basisbedrag", fm "base_valuesigned" (some .decimalT) false),
    ("Rapportagebedrag", fm "report_valuesigned" (some .decimalT) true),
    ("D/C", fm "debitcredit" none false),
    ("Aantal", fm "quantity" (some .intT) true),
    ("groups", fm "groups" none true) ]

/-- The field mapping of the `annual_report_multicurrency` stream. -/
def annualReportMulticurrencyMapping : Mapping :=
  [ ("id", fm "id" none false),
    ("Administratie", fm "office" none false),
    ("Adm.naam", fm "office_name" none false),
    ("Jaar", fm "year" (some .intT) false),
    ("Periode", fm "period" (some .intT) false),
    ("Type", fm "ledger_type" none false),
    ("Grootboekrek.", fm "ledger" (some .intT) false),
    ("Grootboekrek.naam", fm "ledger_name" none false),
    ("Valuta", fm "curcode" none false),
    ("Bedrag", fm "valuesigned" (some .decimalT) false),
    ("Basisbedrag", fm "base_valuesigned" (some .decimalT) false),
    ("Rapportagebedrag", fm "report_valuesigned" (some .decimalT) true),
    ("D/C", fm "debitcredit" none false),
    ("Status", fm "status" none false),
    ("groups", fm "groups" none true) ]

/-- The field mapping of the `suppliers` stream. -/
def suppliersMapping : Mapping :=
  [ ("id", fm "id" none false),
    ("Administratie", fm "office" none false),
    ("Adm.naam", fm "office_name" none false),
    ("Jaar", fm "year" (some .intT) false),
    ("Periode", fm "period" (some .intT) false),
    ("Dagboek", fm "journal" none false),
    ("Dagboeknaam", fm "journal_name" none false),
    ("Boekingsnummer", fm "booking_number" (some .intT) false),
    ("Status", fm "booking_status" none false),
    ("Boekdatum", fm "booking_date" (some .dateParserT) false),
    ("Vervaldatum", fm "expire_date" (some .dateParserT) true),
    ("Factuurnummer", fm "invoice_number" none true),
    ("Valuta", fm "curcode" none false),
    ("Grootboekrek.", fm "ledger" (some .intT) false),
    ("Grootboekrek.naam", fm "ledger_name" none false),
    ("Kpl./rel.", fm "cost_centre" (some .intT) false),
    ("Kpl.-/rel.naam", fm "cost_centre_name" none false),
    ("Bedrag", fm "valuesigned" (some .decimalT) false),
    ("Basisbedrag", fm "base_valuesigned" (some .decimalT) false),
    ("Rapportagebedrag", fm "report_valuesigned" (some .decimalT) true),
    ("Open amount transaction value", fm "open_valuesigned" (some .decimalT) true),
    ("Open amount base value", fm "openbase_valuesigned" (some .decimalT) true),
    ("Betaalstatus", fm "payment_status" none false),
    ("Betaaldatum", fm "payment_date" (some .dateParserT) false),
    ("Afletternummer", fm "affiliation_number" (some .intT) false),
    ("Betaalnummer", fm "payment_number" none true),
    ("Wijzigingsdatum", fm "modification_date" (some .dateParserT) false),
    ("Vrij tekstveld 1", fm "freetext1" none true),
    ("Vrij tekstveld 2", fm "freetext2" none true),
    ("Vrij tekstveld 3", fm "freetext3" none true) ]

/-- The field mapping of the `transaction_summary` stream. -/
def transactionSummaryMapping : Mapping :=
  [ ("id", fm "id" none false),
    ("Administratie", fm "office" none false),
    ("Adm.naam", fm "office_name" none false),
    ("Dagboek", fm "journal" none false),
    ("Jaar/periode (JJJJ/PP)", fm "yearperiod" none false),
    ("Aantal transacties", fm "transaction_count" (some .intT) false),
    ("Aantal transactie regels", fm "transaction_line_count" (some .intT) false) ]

/-- Every STREAMS entry declares `key_properties: id`,
`replication_method: INCREMENTAL`, `replication_key: id` and
`bookmark: start_date`; only the mapping differs. -/
def mkStream (mapping : Mapping) : StreamDef :=
  ⟨"id", "INCREMENTAL", "id", "start_date", mapping⟩

/-- The STREAMS registry of `streams.py`, in declaration order. -/
def STREAMS : List (String × StreamDef) :=
  [ ("bank_transactions", mkStream bankTransactionsMapping),
    ("transaction_list", mkStream transactionListMapping),
    ("general_ledger_transactions", mkStream generalLedgerTransactionsMapping),
    ("transactions_to_be_matched", mkStream transactionsToBeMatchedMapping),
    ("general_ledger_details", mkStream generalLedgerDetailsMapping),
    ("annual_report", mkStream annualReportMapping),
    ("annual_report_multicurrency", mkStream annualReportMulticurrencyMapping),
    ("suppliers", mkStream suppliersMapping),
    ("transaction_summary", mkStream transactionSummaryMapping) ]

/-- Dictionary lookup in STREAMS. -/
def streamsGet? (name : String) : Option StreamDef :=
  alistGet? STREAMS name

/-- `cleaners.clean_bank_transactions`. The Python function mutates
the raw row it receives: `row[\x22id\x22] = sha1(str(row)).hexdigest()`
stores the content hash into the CALLER-owned dict before the mapping
is applied. The embedding therefore returns a pair: the final contents
of the caller-owned row object, and the value returned (or the
exception raised). The external `hashlib.sha1(...).hexdigest()` is the
explicit `sha1hex` parameter; `row_number` is received but never used
by the source. -/
def clean_bank_transactions (sha1hex : String → String)
    (dateParse : String → Except PyError String)
    (row : PyDict) (row_number : Int) :
    PyDict × Except PyError PyDict :=
  let mapping : Option Mapping := (streamsGet? "bank_transactions").map StreamDef.mapping
  let row_string : String := pyStr (Value.vDict row)
  let row1 : PyDict := dictSet row "id" (.vStr (sha1hex row_string))
  match mapping with
  | some m => if m.isEmpty then (row1, .ok row1) else (row1, clean_row dateParse row1 m)
  | none => (row1, .ok row1)

/-- The persisted singer state document:
`\x7b bookmarks: \x7b stream: \x7b field: value \x7d \x7d, currently_syncing: ... \x7d`. -/
structure SyncState : Type where
  bookmarks : List (String × List (String × String))
  currently_syncing : Option String
deriving DecidableEq

/-- `tools.clear_currently_syncing`: `state.pop(\x22currently_syncing\x22, None)`
removes the marker from the state (the popped value, which the caller
ignores, is not modelled). -/
def clear_currently_syncing (state : SyncState) : SyncState :=
  ⟨state.bookmarks, none⟩

/-- Modelled from the singer library used by `tools.update_bookmark`:
`singer.write_bookmark(state, stream, key, value)` ensures the nested
entry `state[\x22bookmarks\x22][stream][key] = value`, creating the
intermediate dicts when absent. -/
def write_bookmark (state : SyncState) (tap_stream_id : String)
    (key : String) (val : String) : SyncState :=
  let streamState := (alistGet? state.bookmarks tap_stream_id).getD []
  ⟨alistSet state.bookmarks tap_stream_id (alistSet streamState key val),
    state.currently_syncing⟩

/-- `tools.update_bookmark`: when the bookmark value is truthy, write
it under the bookmark field of the stream (looked up in STREAMS, a
`KeyError` for an unknown stream id); then always clear the
currently-syncing marker and persist the state with
`singer.write_state`. The second component of the result is the state
document that `write_state` persisted. -/
def update_bookmark (tap_stream_id : String) (bookmark : Option String)
    (state : SyncState) : Except PyError (SyncState × SyncState) :=
  let afterWrite : Except PyError SyncState :=
    match bookmark with
    | some b =>
      if b = "" then .ok state
      else
        match streamsGet? tap_stream_id with
        | some sd => .ok (write_bookmark state tap_stream_id sd.bookmark b)
        | none => .error (.keyError tap_stream_id)
    | none => .ok state
  afterWrite.map (fun st1 =>
    let st2 := clear_currently_syncing st1
    (st2, st2))

/-- The bookmark currently stored for a stream and field, if any. -/
def bookmarkOf (state : SyncState) (stream field : String) : Option String :=
  (alistGet? state.bookmarks stream).bind (fun s => alistGet? s field)

/-- Python `s.rjust(width, c)`: pad on the left up to `width`. -/
def rjust (s : String) (width : Nat) (c : Char) : String :=
  if width ≤ s.length then s
  else String.mk (List.replicate (width - s.length) c) ++ s

/-- `tools.get_bookmark_value`: streams bookmarked through a single
`yearperiod` field return it with `/` replaced by `-`; streams
bookmarked through separate `year` and `period` fields return
`year-period` with the period zero-padded to two digits; every other
stream name returns `None`. Reading a missing field raises `KeyError`;
calling `.replace` on a non-string raises an attribute error, modelled
as a type error. -/
def get_bookmark_value (stream_name : String) (row : PyDict) :
    Except PyError (Option String) :=
  if ["bank_transactions", "general_ledger_transactions",
      "transactions_to_be_matched"].contains stream_name then
    match dictGet? row "yearperiod" with
    | none => .error (.keyError "yearperiod")
    | some (.vStr s) => .ok (some (pyCharReplace s '/' '-'))
    | some v => .error (.typeError (typeName v ++ " object has no attribute replace"))
  else if ["general_ledger_details", "annual_report", "multicurrency",
      "suppliers"].contains stream_name then
    match dictGet? row "year" with
    | none => .error (.keyError "year")
    | some y =>
      match dictGet? row "period" with
      | none => .error (.keyError "period")
      | some p => .ok (some (pyStr y ++ "-" ++ rjust (pyStr p) 2 '0'))
  else .ok none

/-- Absolute month index of a calendar month (year, month). -/
def monthIndex (year month : Nat) : Nat := year * 12 + (month - 1)

/-- The parsing prefix of `Twinfield._start_month_till_now`:
`int(start_date.split(\x22-\x22)[0])`, `int(start_date.split(\x22-\x22)[1].lstrip())`
and the `date(year, month, 1)` constructor, whose range checks
(1..9999 for the year, 1..12 for the month) raise `ValueError`.
A missing second component raises `IndexError`. -/
def parseStartMonth (start_date : String) : Except PyError (Nat × Nat) :=
  let parts := pySplitOnChar '-' start_date
  match parts.get? 0 with
  | none => .error (.indexError "list index out of range")
  | some p0 =>
    match pyIntParse p0 with
    | .error e => .error e
    | .ok y =>
      match parts.get? 1 with
      | none => .error (.indexError "list index out of range")
      | some p1 =>
        match pyIntParse (pyLStrip p1) with
        | .error e => .error e
        | .ok m =>
          if 1 ≤ y ∧ y ≤ 9999 ∧ 1 ≤ m ∧ m ≤ 12 then .ok (y.toNat, m.toNat)
          else .error (.valueError "year or month is out of range for date")

/-- `dateutil.rrule(freq=MONTHLY, dtstart=date(y, m, 1), until=now)`:
the first day of every month, from the start month, while not after
`now`. Because the series starts on the first day of a month at
midnight and `now` is never before the first instant of the current
month, the occurrences are exactly the months from the start month
through the current month, and none when the start month lies in the
future. Months are absolute indices; `now` is the index of the
current calendar month at call time. -/
def rruleMonthlyIdx (startIdx nowIdx : Nat) : List Nat :=
  if nowIdx < startIdx then []
  else (List.range (nowIdx + 1 - startIdx)).map (fun i => startIdx + i)

/-- `date_month.strftime(\x22%Y/%m\x22)` for an absolute month index. -/
def fmtYearMonth (idx : Nat) : String :=
  rjust (toString (idx / 12)) 4 '0' ++ "/" ++ rjust (toString (idx % 12 + 1)) 2 '0'

/-- `Twinfield._start_month_till_now`: parse the start date, then
yield every month from it through the current month as a
`YYYY/MM` string. The ambient `datetime.utcnow()` is the explicit
`nowIdx` parameter. -/
def start_month_till_now (start_date : String) (nowIdx : Nat) :
    Except PyError (List String) :=
  (parseStartMonth start_date).map (fun ym =>
    (rruleMonthlyIdx (monthIndex ym.1 ym.2) nowIdx).map fmtYearMonth)

/-- Clean one exported month of rows:
`(cleaner(row, number) for number, row in enumerate(export))`. -/
def clean_month (cleaner : PyDict → Int → Except PyError PyDict)
    (rows : List PyDict) : Except PyError (List PyDict) :=
  rows.enum.mapM (fun p => cleaner p.2 (Int.ofNat p.1))

/-- The shared shape of the eight extraction methods of the Twinfield
client (`bank_transactions`, `general_ledger_details`, ...): for every
month from the start date until now, substitute both period
placeholders of the query template with the month, issue the query
through `export_data`, and clean each returned row in order. The
result pairs the list of queries issued with the records produced (or
the exception raised); a failed start-date parse raises before any
query is issued. -/
def monthly_stream_extract (queryTemplate : String)
    (export_data : String → List PyDict)
    (cleaner : PyDict → Int → Except PyError PyDict)
    (start_date : String) (nowIdx : Nat) :
    List String × Except PyError (List PyDict) :=
  match start_month_till_now start_date nowIdx with
  | .error e => ([], .error e)
  | .ok months =>
    months.foldl
      (fun acc date_month =>
        match acc with
        | (queries, .error e) => (queries, .error e)
        | (queries, .ok records) =>
          let query :=
            (queryTemplate.replace ":period_lower:" date_month).replace
              ":period_upper:" date_month
          match clean_month cleaner (export_data query) with
          | .ok cleaned => (queries ++ [query], .ok (records ++ cleaned))
          | .error e => (queries ++ [query], .error e))
      ([], .ok [])

/-- Stand-in for the external `dateutil` parse, used only to
instantiate closed statements that never exercise a timestamp
conversion. -/
def dateParseStub : String → Except PyError String :=
  fun s => .ok s

theorem alistGet?_alistSet_self {α : Type} (d : List (String × α)) (k : String) (v : α) :
    alistGet? (alistSet d k v) k = some v := by
  induction d with
  | nil => simp [alistSet, alistGet?]
  | cons kv rest ih =>
    by_cases h : kv.1 = k
    · simp [alistSet, alistGet?, h]
    · simp [alistSet, alistGet?, h, ih]

theorem alistGet?_alistSet_ne {α : Type} (d : List (String × α)) (k k2 : String) (v : α)
    (h : k2 ≠ k) : alistGet? (alistSet d k v) k2 = alistGet? d k2 := by
  induction d with
  | nil => simp [alistSet, alistGet?, Ne.symm h]
  | cons kv rest ih =>
    by_cases hk : kv.1 = k
    · subst hk
      simp [alistSet, alistGet?, Ne.symm h]
    · by_cases hk2 : kv.1 = k2
      · simp [alistSet, alistGet?, hk, hk2, h]
      · simp [alistSet, alistGet?, hk, hk2, ih]

/-- A raw bank-transactions row as the 410 report exports it: all
thirteen mapped columns present as strings. -/
def bankRow : PyDict :=
  [ ("Periode", .vStr "2021/01"), ("Bank", .vStr "ING"), ("Bank Naam", .vStr "Bank"),
    ("Boekst.nr.", .vStr "202100001"), ("Afschriftnr.", .vStr "12"),
    ("Grootboek", .vStr "1100"), ("Grootboek Naam", .vStr "Bankrekening"),
    ("Valuta", .vStr "EUR"), ("Bedrag", .vStr "100.00"), ("Euro", .vStr "100.00"),
    ("Vorig saldo", .vStr "0.00"), ("Eindsaldo", .vStr "100.00"),
    ("Status", .vStr "normal") ]

/-- C1 counterexample: `clean_bank_transactions` is NOT free of side
effects on its input: after cleaning the concrete raw row `bankRow`,
the contents of the caller-owned row object differ from the row that
was passed in (an `id` key has been inserted into it). -/
theorem clean_bank_transactions_mutates_input :
    (clean_bank_transactions (fun _ => "hash") dateParseStub bankRow 0).1 ≠ bankRow := by
  intro h
  have h1 : dictGet? (clean_bank_transactions (fun _ => "hash") dateParseStub bankRow 0).1 "id"
      = some (.vStr "hash") := rfl
  have h2 : dictGet? bankRow "id" = none := rfl
  rw [h, h2] at h1
  exact Option.noConfusion h1

/-- C1 (amended): `clean_bank_transactions` is deterministic — its
output does not even depend on the row ordinal — but it mutates the
raw row it is given: afterwards the caller-owned row carries an `id`
key holding the hex digest of the hash of the textual form of the
original row, and is unchanged at every other key. -/
theorem clean_bank_transactions_deterministic_but_mutating
    (sha1hex : String → String) (dateParse : String → Except PyError String)
    (row : PyDict) (row_number : Int) :
    dictGet? (clean_bank_transactions sha1hex dateParse row row_number).1 "id"
        = some (.vStr (sha1hex (pyStr (.vDict row))))
    ∧ (∀ k, k ≠ "id" →
        dictGet? (clean_bank_transactions sha1hex dateParse row row_number).1 k
          = dictGet? row k)
    ∧ clean_bank_transactions sha1hex dateParse row row_number
        = clean_bank_transactions sha1hex dateParse row 0 := by
  refine ⟨?_, ?_, rfl⟩
  · exact alistGet?_alistSet_self row "id" (.vStr (sha1hex (pyStr (.vDict row))))
  · intro k hk
    exact alistGet?_alistSet_ne row "id" k (.vStr (sha1hex (pyStr (.vDict row)))) hk

/-- Witness for the amended C1 theorem at a concrete row and key. -/
theorem clean_bank_transactions_deterministic_but_mutating_witness :
    dictGet? (clean_bank_transactions (fun _ => "hash") dateParseStub bankRow 0).1 "Periode"
      = dictGet? bankRow "Periode" :=
  (clean_bank_transactions_deterministic_but_mutating
    (fun _ => "hash") dateParseStub bankRow 0).2.1 "Periode" (by decide)

/-- C2: the primary key of a cleaned bank-transactions row is the
content hash of the raw row alone; the row ordinal passed by the
extraction loop is ignored (despite the docstring saying it is used to
construct the primary key). Two identical raw rows occurring in one
stream-month batch at ordinals 0 and 1 therefore clean to records with
the SAME `id`, so primary keys within a batch are not pairwise
distinct. -/
theorem clean_bank_transactions_duplicate_rows_same_id
    (sha1hex : String → String) (dateParse : String → Except PyError String) :
    clean_bank_transactions sha1hex dateParse bankRow 0
        = clean_bank_transactions sha1hex dateParse bankRow 1
    ∧ (∃ cleaned,
        (clean_bank_transactions (fun _ => "9a8b7c") dateParseStub bankRow 0).2 = .ok cleaned
        ∧ (clean_bank_transactions (fun _ => "9a8b7c") dateParseStub bankRow 1).2 = .ok cleaned
        ∧ dictGet? cleaned "id" = some (.vStr "9a8b7c")) :=
  ⟨rfl,
   ⟨[ ("id", .vStr "9a8b7c"), ("yearperiod", .vStr "2021/01"),
      ("bank_code", .vStr "ING"), ("bank_shortname", .vStr "Bank"),
      ("entry_number", .vInt 202100001), ("statement_number", .vInt 12),
      ("ledger", .vStr "1100"), ("ledger_name", .vStr "Bankrekening"),
      ("curcode", .vStr "EUR"), ("value_signed", .vDec 10000 (-2)),
      ("basevalue_signed", .vDec 10000 (-2)), ("startvalue", .vDec 0 (-2)),
      ("closevalue", .vDec 10000 (-2)), ("status", .vStr "normal") ],
    rfl, rfl, rfl⟩⟩

/-- Chronological index of a `YYYY-MM` bookmark string, used to
compare two bookmark values in time. -/
def ymKeyIdx (s : String) : Option Nat :=
  match pySplitOnChar '-' s with
  | [y, m] =>
    match pyIntParse y, pyIntParse m with
    | .ok yy, .ok mm => some (monthIndex yy.toNat mm.toNat)
    | _, _ => none
  | _ => none

/-- A state whose bank-transactions bookmark stands at 2021-05 while
that stream is marked as currently syncing. -/
def c3state : SyncState :=
  ⟨[("bank_transactions", [("start_date", "2021-05")])], some "bank_transactions"⟩

/-- The same state after `update_bookmark` overwrote the bookmark
with the earlier month 2021-01. -/
def c3after : SyncState :=
  ⟨[("bank_transactions", [("start_date", "2021-01")])], none⟩

/-- C3 counterexample: `update_bookmark` does NOT keep the stored
bookmark from moving backward: called with the present bookmark value
2021-01 on a state whose stored bookmark is 2021-05, it overwrites the
stored value with the strictly earlier month. -/
theorem update_bookmark_moves_backward :
    bookmarkOf c3state "bank_transactions" "start_date" = some "2021-05"
    ∧ update_bookmark "bank_transactions" (some "2021-01") c3state = .ok (c3after, c3after)
    ∧ bookmarkOf c3after "bank_transactions" "start_date" = some "2021-01"
    ∧ (ymKeyIdx "2021-01").getD 0 < (ymKeyIdx "2021-05").getD 0 := by
  exact ⟨rfl, rfl, rfl, by decide⟩

/-- C3 (amended): `update_bookmark` with a present (truthy) bookmark
value unconditionally overwrites the stored bookmark of the stream
with the given value — forward or backward; it always clears the
currently-syncing marker, and the state persisted by
`singer.write_state` is exactly the updated state, on every call
(also when the bookmark is absent). -/
theorem update_bookmark_overwrites_clears_and_persists
    (tap_stream_id b : String) (state : SyncState) (sd : StreamDef)
    (hb : b ≠ "") (hsd : streamsGet? tap_stream_id = some sd) :
    (∃ st, update_bookmark tap_stream_id (some b) state = .ok (st, st)
        ∧ bookmarkOf st tap_stream_id sd.bookmark = some b
        ∧ st.currently_syncing = none)
    ∧ update_bookmark tap_stream_id none state
        = .ok (clear_currently_syncing state, clear_currently_syncing state) := by
  constructor
  · refine ⟨clear_currently_syncing (write_bookmark state tap_stream_id sd.bookmark b),
      ?_, ?_, rfl⟩
    · simp [update_bookmark, hb, hsd, clear_currently_syncing, Except.map]
    · simp [bookmarkOf, clear_currently_syncing, write_bookmark,
        alistGet?_alistSet_self]
  · rfl

/-- Witness for the amended C3 theorem at a concrete stream, bookmark
value and state. -/
theorem update_bookmark_overwrites_clears_and_persists_witness :
    ("2021-06" : String) ≠ ""
    ∧ streamsGet? "bank_transactions" = some (mkStream bankTransactionsMapping)
    ∧ (∃ st, update_bookmark "bank_transactions" (some "2021-06") c3state = .ok (st, st)
        ∧ bookmarkOf st "bank_transactions" (mkStream bankTransactionsMapping).bookmark
            = some "2021-06"
        ∧ st.currently_syncing = none) :=
  ⟨by decide, rfl,
   (update_bookmark_overwrites_clears_and_persists "bank_transactions" "2021-06"
     c3state (mkStream bankTransactionsMapping) (by decide) rfl).1⟩

theorem rruleMonthlyIdx_get? (s n i : Nat) :
    (rruleMonthlyIdx s n).get? i
      = if i < n + 1 - s then some (s + i) else none := by
  unfold rruleMonthlyIdx
  by_cases h : n < s
  · have h0 : n + 1 - s = 0 := by omega
    simp [h, h0]
  · rw [if_neg h, List.get?_map]
    by_cases hi : i < n + 1 - s
    · rw [List.get?_range hi, if_pos hi]
      rfl
    · rw [List.get?_eq_none.2 (by simpa using Nat.not_lt.1 hi), if_neg hi]
      rfl

theorem rruleMonthlyIdx_length (s n : Nat) (h : s ≤ n) :
    (rruleMonthlyIdx s n).length = n + 1 - s := by
  simp [rruleMonthlyIdx, Nat.not_lt.2 h]

/-- C4: for a start date that parses as a calendar month, the period
iterator yields exactly the months from the start month through the
current month, formatted `YYYY/MM`: the sequence is empty when the
start month lies in the future, otherwise its first element is the
start month, its last element is the current month, element `i` is the
start month plus `i` months (so consecutive elements are exactly one
calendar month apart), and a start month equal to the current month
yields exactly one element. -/
theorem start_month_till_now_months (start_date : String) (y m nowIdx : Nat)
    (hparse : parseStartMonth start_date = .ok (y, m)) :
    start_month_till_now start_date nowIdx
        = .ok ((rruleMonthlyIdx (monthIndex y m) nowIdx).map fmtYearMonth)
    ∧ (nowIdx < monthIndex y m → start_month_till_now start_date nowIdx = .ok [])
    ∧ (monthIndex y m ≤ nowIdx →
        ((rruleMonthlyIdx (monthIndex y m) nowIdx).map fmtYearMonth).head?
            = some (fmtYearMonth (monthIndex y m))
        ∧ ((rruleMonthlyIdx (monthIndex y m) nowIdx).map fmtYearMonth).getLast?
            = some (fmtYearMonth nowIdx))
    ∧ (∀ i, (rruleMonthlyIdx (monthIndex y m) nowIdx).get? i
        = if i < nowIdx + 1 - monthIndex y m then some (monthIndex y m + i) else none)
    ∧ (monthIndex y m = nowIdx →
        start_month_till_now start_date nowIdx = .ok [fmtYearMonth nowIdx]) := by
  refine ⟨?_, ?_, ?_, rruleMonthlyIdx_get? (monthIndex y m) nowIdx, ?_⟩
  · simp [start_month_till_now, hparse, Except.map]
  · intro h
    simp [start_month_till_now, hparse, Except.map, rruleMonthlyIdx, h]
  · intro h
    constructor
    · rw [← List.get?_zero, List.get?_map, rruleMonthlyIdx_get?,
        if_pos (by omega : 0 < nowIdx + 1 - monthIndex y m)]
      rfl
    · rw [List.getLast?_eq_get?, List.get?_map, List.length_map,
        rruleMonthlyIdx_length _ _ h, rruleMonthlyIdx_get?,
        if_pos (by omega : nowIdx + 1 - monthIndex y m - 1 < nowIdx + 1 - monthIndex y m)]
      have he : monthIndex y m + (nowIdx + 1 - monthIndex y m - 1) = nowIdx := by omega
      rw [he]
      rfl
  · intro h
    subst h
    simp [start_month_till_now, hparse, Except.map, rruleMonthlyIdx, List.range_succ]

/-- Witness for C4: starting at January 2021 with March 2021 as the
current month yields exactly the three months in between. -/
theorem start_month_till_now_months_witness :
    parseStartMonth "2021-01" = .ok (2021, 1)
    ∧ start_month_till_now "2021-01" (monthIndex 2021 3)
        = .ok ["2021/01", "2021/02", "2021/03"] := by
  refine ⟨rfl, ?_⟩
  have h := (start_month_till_now_months "2021-01" 2021 1 (monthIndex 2021 3) rfl).1
  rw [h]
  rfl

/-- C5 counterexample: a present (truthy) value with the declared
target type `Decimal` whose conversion fails does NOT fail with
`ConvertionError`: `Decimal` raises `decimal.InvalidOperation`, which
is not a `ValueError`, so the `except ValueError` clause of
`to_type_or_null` lets it propagate unchanged. -/
theorem to_type_or_null_decimal_failure_not_convertion_error :
    truthy (.vStr "not a number") = true
    ∧ to_type_or_null dateParseStub (.vStr "not a number") (some .decimalT) true
        = .error (.invalidOperation "[<class decimal.ConversionSyntax>]")
    ∧ isConvertionError (.invalidOperation "[<class decimal.ConversionSyntax>]") = false :=
  ⟨rfl, rfl, rfl⟩

/-- C5 (amended): `to_type_or_null` behaves as follows. A falsy value
becomes `None` when nullable and is passed through otherwise; a truthy
value with no declared type is passed through; a truthy value with a
declared type is converted, and a failing conversion raises
`ConvertionError` exactly when the underlying exception is a
`ValueError` — any other exception (notably `decimal.InvalidOperation`
from a failing `Decimal` conversion, or a `TypeError`) propagates
unchanged. -/
theorem to_type_or_null_cases (dateParse : String → Except PyError String)
    (v : Value) (dt? : Option DType) (nullable : Bool) :
    (truthy v = false ∧ nullable = true
      ∧ to_type_or_null dateParse v dt? nullable = .ok .vNone)
    ∨ (truthy v = false ∧ nullable = false
      ∧ to_type_or_null dateParse v dt? nullable = .ok v)
    ∨ (truthy v = true ∧ dt? = none
      ∧ to_type_or_null dateParse v dt? nullable = .ok v)
    ∨ (truthy v = true ∧ ∃ dt, dt? = some dt ∧
        ((∃ w, applyDType dateParse dt v = .ok w
            ∧ to_type_or_null dateParse v dt? nullable = .ok w)
        ∨ (∃ msg, applyDType dateParse dt v = .error (.valueError msg)
            ∧ to_type_or_null dateParse v dt? nullable
                = .error (.convertionError
                    ("Could not convert " ++ pyStr v ++ " to " ++ dtypeName dt ++ ": " ++ msg)))
        ∨ (∃ e, applyDType dateParse dt v = .error e ∧ isValueError e = false
            ∧ to_type_or_null dateParse v dt? nullable = .error e))) := by
  cases dt? with
  | none =>
    cases ht : truthy v with
    | false =>
      cases hn : nullable with
      | false => exact Or.inr (Or.inl ⟨rfl, rfl, by simp [to_type_or_null, ht]⟩)
      | true => exact Or.inl ⟨rfl, rfl, by simp [to_type_or_null, ht]⟩
    | true =>
      exact Or.inr (Or.inr (Or.inl ⟨rfl, rfl, by simp [to_type_or_null, ht]⟩))
  | some dt =>
    cases ht : truthy v with
    | false =>
      cases hn : nullable with
      | false => exact Or.inr (Or.inl ⟨rfl, rfl, by simp [to_type_or_null, ht]⟩)
      | true => exact Or.inl ⟨rfl, rfl, by simp [to_type_or_null, ht]⟩
    | true =>
      refine Or.inr (Or.inr (Or.inr ⟨rfl, dt, rfl, ?_⟩))
      cases ha : applyDType dateParse dt v with
      | ok w => exact Or.inl ⟨w, rfl, by simp [to_type_or_null, ht, ha]⟩
      | error e =>
        cases e with
        | valueError msg =>
          exact Or.inr (Or.inl ⟨msg, rfl, by simp [to_type_or_null, ht, ha]⟩)
        | typeError msg =>
          exact Or.inr (Or.inr ⟨_, rfl, rfl, by simp [to_type_or_null, ht, ha]⟩)
        | invalidOperation msg =>
          exact Or.inr (Or.inr ⟨_, rfl, rfl, by simp [to_type_or_null, ht, ha]⟩)
        | indexError msg =>
          exact Or.inr (Or.inr ⟨_, rfl, rfl, by simp [to_type_or_null, ht, ha]⟩)
        | keyError msg =>
          exact Or.inr (Or.inr ⟨_, rfl, rfl, by simp [to_type_or_null, ht, ha]⟩)
        | convertionError msg =>
          exact Or.inr (Or.inr ⟨_, rfl, rfl, by simp [to_type_or_null, ht, ha]⟩)

/-- C6: bookmark derivation per stream family: a bank-transactions
record whose `yearperiod` field is `2021/03` yields the bookmark
`2021-03`, and a general-ledger-details record with `year` 2021 and
`period` 3 yields the bookmark `2021-03` (the period number
zero-padded to two digits). -/
theorem get_bookmark_value_round_trips :
    get_bookmark_value "bank_transactions" [("yearperiod", .vStr "2021/03")]
        = .ok (some "2021-03")
    ∧ get_bookmark_value "general_ledger_details"
        [("year", .vInt 2021), ("period", .vInt 3)] = .ok (some "2021-03") :=
  ⟨rfl, rfl⟩

/-- C7: when the start date cannot be parsed as a year-month, every
extraction method raises the parse error before issuing any remote
query: the list of queries issued is empty and the error is exactly
the parse failure. -/
theorem monthly_stream_extract_bad_start_date (queryTemplate : String)
    (export_data : String → List PyDict)
    (cleaner : PyDict → Int → Except PyError PyDict)
    (start_date : String) (nowIdx : Nat) (e : PyError)
    (hparse : parseStartMonth start_date = .error e) :
    monthly_stream_extract queryTemplate export_data cleaner start_date nowIdx
      = ([], .error e) := by
  simp [monthly_stream_extract, start_month_till_now, hparse, Except.map]

/-- Witness for C7: a start date in the wrong `YYYY/MM` shape fails to
parse and the extraction issues no query at all. -/
theorem monthly_stream_extract_bad_start_date_witness :
    parseStartMonth "2021/03"
        = .error (.valueError ("invalid literal for int with base 10: " ++ reprStr "2021/03"))
    ∧ monthly_stream_extract "q" (fun _ => []) (fun r _ => .ok r) "2021/03" 2000
        = ([], .error (.valueError
            ("invalid literal for int with base 10: " ++ reprStr "2021/03"))) :=
  ⟨rfl, monthly_stream_extract_bad_start_date "q" (fun _ => []) (fun r _ => .ok r)
    "2021/03" 2000 _ rfl⟩

theorem exceptBind_ok {ε α β : Type} (a : α) (f : α → Except ε β) :
    ((Except.ok a : Except ε α) >>= f) = f a := rfl

theorem exceptBind_error {ε α β : Type} (e : ε) (f : α → Except ε β) :
    ((Except.error e : Except ε α) >>= f) = Except.error e := rfl

theorem foldlM_cleanStep_append (dateParse : String → Except PyError String)
    (row : PyDict) (m1 m2 : Mapping) (acc : PyDict) :
    (m1 ++ m2).foldlM (cleanStep dateParse row) acc
      = (m1.foldlM (cleanStep dateParse row) acc).bind
          (fun d => m2.foldlM (cleanStep dateParse row) d) := by
  induction m1 generalizing acc with
  | nil => rfl
  | cons kv rest ih =>
    rw [List.cons_append, List.foldlM_cons, List.foldlM_cons]
    cases h : cleanStep dateParse row acc kv with
    | ok d => rw [exceptBind_ok, exceptBind_ok, ih]
    | error e => rw [exceptBind_error, exceptBind_error]; rfl

/-- C8: for a stream cleaned directly through `clean_row` (the
non-reshaping streams), a raw column declared in the field mapping but
absent from the input row makes `clean_row` raise `KeyError` for that
column — no record with a null in that field is emitted; the
empty-to-null normalization applies only to columns that are present
but empty. `pre` is the mapping prefix before the missing column,
which must itself clean successfully for the loop to reach it. -/
theorem clean_row_missing_column (dateParse : String → Except PyError String)
    (row : PyDict) (pre rest : Mapping) (key : String) (km : FieldMap)
    (hpre : ∃ d, clean_row dateParse row pre = .ok d)
    (habs : dictGet? row key = none) :
    clean_row dateParse row (pre ++ (key, km) :: rest) = .error (.keyError key) := by
  obtain ⟨d, hd⟩ := hpre
  unfold clean_row at hd ⊢
  rw [foldlM_cleanStep_append, hd]
  show ((key, km) :: rest).foldlM (cleanStep dateParse row) d = _
  rw [List.foldlM_cons]
  have hstep : cleanStep dateParse row d (key, km) = .error (.keyError key) := by
    simp [cleanStep, habs]
  rw [hstep]
  rfl

/-- A raw bank-transactions row missing the declared `Bank` column
(`id` has already been inserted by the cleaner). -/
def c8row : PyDict := [("id", .vStr "abc"), ("Periode", .vStr "2021/01")]

/-- Witness for C8 on the bank-transactions mapping: the first two
mapping entries clean fine, the `Bank` column is absent, and
`clean_row` raises `KeyError` for it. -/
theorem clean_row_missing_column_witness :
    dictGet? c8row "Bank" = none
    ∧ (∃ d, clean_row dateParseStub c8row (bankTransactionsMapping.take 2) = .ok d)
    ∧ clean_row dateParseStub c8row bankTransactionsMapping = .error (.keyError "Bank") :=
  ⟨rfl, ⟨[("id", .vStr "abc"), ("yearperiod", .vStr "2021/01")], rfl⟩,
   clean_row_missing_column dateParseStub c8row (bankTransactionsMapping.take 2)
     (bankTransactionsMapping.drop 3) "Bank" (fm "bank_code" none false)
     ⟨[("id", .vStr "abc"), ("yearperiod", .vStr "2021/01")], rfl⟩ rfl⟩

/-- C9: the bookmark rule for year-period streams names the stream
`multicurrency`, while the stream is registered (in STREAMS, with a
mapping that does map `Jaar` to `year` and `Periode` to `period`)
under `annual_report_multicurrency`. `get_bookmark_value` therefore
returns `None` for every record of that stream, and `update_bookmark`
called with that absent bookmark never writes a bookmarks entry for
the stream (it only clears the currently-syncing marker and persists
the otherwise-unchanged state). -/
theorem annual_report_multicurrency_never_bookmarked :
    (∀ row : PyDict,
      get_bookmark_value "annual_report_multicurrency" row = .ok none)
    ∧ streamsGet? "annual_report_multicurrency"
        = some (mkStream annualReportMulticurrencyMapping)
    ∧ alistGet? annualReportMulticurrencyMapping "Jaar"
        = some (fm "year" (some .intT) false)
    ∧ alistGet? annualReportMulticurrencyMapping "Periode"
        = some (fm "period" (some .intT) false)
    ∧ (["general_ledger_details", "annual_report", "multicurrency",
        "suppliers"].contains "annual_report_multicurrency") = false
    ∧ (∀ state : SyncState,
        update_bookmark "annual_report_multicurrency" none state
            = .ok (clear_currently_syncing state, clear_currently_syncing state)
        ∧ (clear_currently_syncing state).bookmarks = state.bookmarks) :=
  ⟨fun _ => rfl, rfl, rfl, rfl, rfl, fun _ => ⟨rfl, rfl⟩⟩

/-- C10: `to_type_or_null` never applies the declared target type to a
falsy input: for every falsy value with `nullable` true the result is
`None`, whatever target type is declared. -/
theorem to_type_or_null_falsy_is_null (dateParse : String → Except PyError String)
    (dt? : Option DType) (v : Value) (h : truthy v = false) :
    to_type_or_null dateParse v dt? true = .ok .vNone := by
  cases dt? <;> simp [to_type_or_null, h]

/-- Witness for C10 at each falsy value of the claim (integer 0, empty
string, empty list, empty mapping, None, False), each with a declared
target type. -/
theorem to_type_or_null_falsy_is_null_witness :
    truthy (.vInt 0) = false
    ∧ to_type_or_null dateParseStub (.vInt 0) (some .intT) true = .ok .vNone
    ∧ to_type_or_null dateParseStub (.vStr "") (some .intT) true = .ok .vNone
    ∧ to_type_or_null dateParseStub (.vList []) (some .decimalT) true = .ok .vNone
    ∧ to_type_or_null dateParseStub (.vDict []) (some .decimalT) true = .ok .vNone
    ∧ to_type_or_null dateParseStub .vNone (some .dateParserT) true = .ok .vNone
    ∧ to_type_or_null dateParseStub (.vBool false) (some .intT) true = .ok .vNone :=
  ⟨rfl,
   to_type_or_null_falsy_is_null dateParseStub (some .intT) (.vInt 0) rfl,
   to_type_or_null_falsy_is_null dateParseStub (some .intT) (.vStr "") rfl,
   to_type_or_null_falsy_is_null dateParseStub (some .decimalT) (.vList []) rfl,
   to_type_or_null_falsy_is_null dateParseStub (some .decimalT) (.vDict []) rfl,
   to_type_or_null_falsy_is_null dateParseStub (some .dateParserT) .vNone rfl,
   to_type_or_null_falsy_is_null dateParseStub (some .intT) (.vBool false) rfl⟩

end TapTwinfield
